import Mathlib

/-
Verification of the room-membership and broadcast-routing core of a
real-time chat relay (server.js).  The per-connection event handlers
(join, sendMessage, sendLocation, disconnect) are embedded from the
source file; the user-registry and message-formatting helpers that the
server imports are modelled from the specification, since their source
is not part of the repository.  Outbound emissions are recorded as
actions carrying the resolved set of target connections, computed from
the registry snapshot in force when the source dispatches them.
-/

namespace ChatApp

/-- Lowercases an ASCII letter, modelling the character-wise effect of
JavaScript String.prototype.toLowerCase on ASCII input. -/
def lowerChar (c : Char) : Char :=
  if 65 ≤ c.toNat ∧ c.toNat ≤ 90 then Char.ofNat (c.toNat + 32) else c

/-- Lowercases a string character by character (String.prototype.toLowerCase). -/
def lower (s : String) : String :=
  ⟨s.data.map lowerChar⟩

/-- Whitespace as stripped by String.prototype.trim. -/
def isSpaceChar (c : Char) : Bool :=
  c = ' ' ∨ c = '\t' ∨ c = '\n' ∨ c = '\r'

/-- Strips leading and trailing whitespace (String.prototype.trim). -/
def trimStr (s : String) : String :=
  ⟨((s.data.dropWhile isSpaceChar).reverse.dropWhile isSpaceChar).reverse⟩

/-- A registry entry: one joined user.  `id` is the owning connection
identifier (socket.id); `username` and `room` are the stored, trimmed
strings. -/
structure User where
  id : String
  username : String
  room : String
deriving DecidableEq, Repr

/-- The user registry: the module-level list of users owned by the
users utility module. -/
abbrev Registry := List User

/-- The typed validation errors of addUser. -/
inductive AddUserError
  | MissingField
  | UsernameTaken
deriving DecidableEq, Repr

/-- Modelled from the spec: `addUser(connectionId, rawUsername, rawRoom)`
from the missing utils/users module.  Trims and validates both fields,
fails with MissingField if either is empty after trimming, fails with
UsernameTaken if an existing User in the same room (case-insensitive
match) already holds that username (case-insensitive); on success
inserts and returns the new User. -/
def addUser (reg : Registry) (id rawUsername rawRoom : String) :
    Except AddUserError (User × Registry) :=
  if trimStr rawUsername = "" ∨ trimStr rawRoom = "" then
    .error .MissingField
  else if reg.any (fun u =>
      lower u.room == lower (trimStr rawRoom) &&
      lower u.username == lower (trimStr rawUsername)) then
    .error .UsernameTaken
  else
    let user : User := ⟨id, trimStr rawUsername, trimStr rawRoom⟩
    .ok (user, reg ++ [user])

/-- Modelled from the spec: `removeUser(connectionId)` from the missing
utils/users module.  Removes and returns the User record for that
connection if present, else reports absence. -/
def removeUser (reg : Registry) (id : String) : Option User × Registry :=
  match reg.find? (fun u => u.id == id) with
  | some u => (some u, reg.filter (fun v => ¬ v.id == id))
  | none => (none, reg)

/-- Modelled from the spec: `getUser(connectionId)` from the missing
utils/users module.  Pure lookup, no mutation. -/
def getUser (reg : Registry) (id : String) : Option User :=
  reg.find? (fun u => u.id == id)

/-- Modelled from the spec: `getUsersInRoom(room)` from the missing
utils/users module.  Snapshot of all Users whose room matches,
case-insensitively, in registry (insertion) order. -/
def getUsersInRoom (reg : Registry) (room : String) : List User :=
  reg.filter (fun u => lower u.room == lower room)

/-- An outbound chat event body.  Modelled from the spec: the missing
utils/messages module builds records of sender, text and timestamp; the
timestamp is opaque wall-clock data and is not modelled. -/
structure Message where
  sender : String
  text : String
deriving DecidableEq, Repr

/-- Modelled from the spec: `generateMessage(sender, text)` from the
missing utils/messages module. -/
def generateMessage (sender text : String) : Message :=
  ⟨sender, text⟩

/-- Modelled from the spec: `generateLocation(sender, location)` from
the missing utils/messages module; the location payload is kept as an
opaque string. -/
def generateLocation (sender location : String) : Message :=
  ⟨sender, location⟩

/-- RoomRouter primitive: every connection currently in the room,
computed from a fresh registry snapshot (io.to(room)). -/
def targetsForRoom (reg : Registry) (room : String) : List String :=
  (getUsersInRoom reg room).map (fun u => u.id)

/-- RoomRouter primitive: every connection currently in the room except
the excluded one (socket.broadcast.to(room)). -/
def targetsForRoomExcluding (reg : Registry) (room excluded : String) :
    List String :=
  (targetsForRoom reg room).filter (fun c => ¬ c == excluded)

/-- Payload of an outbound event, tagged by event name. -/
inductive Payload
  | message (m : Message)
  | location (m : Message)
  | roomInfo (room : String) (users : List User)
deriving DecidableEq, Repr

/-- One outbound emission: the payload together with the resolved list
of target connections. -/
structure OutEvent where
  targets : List String
  payload : Payload
deriving DecidableEq, Repr

/-- One observable action of a handler, in dispatch order: an emission,
or the acknowledgement callback (cb() carries none, cb(err) carries the
error string). -/
inductive Action
  | emit (e : OutEvent)
  | ack (err : Option String)
deriving DecidableEq, Repr

/-- The outcome of running one inbound-event handler: either it runs to
completion with the listed actions, or it raises an uncaught exception
(a TypeError in the JavaScript source) after dispatching the listed
actions. -/
inductive Outcome
  | normal (actions : List Action)
  | crash (actions : List Action)
deriving DecidableEq, Repr

/-- The reserved system sender name (const system = 'Chat App'). -/
def system : String := "Chat App"

/-- The acknowledgement payload for a failed join.  Modelled from the
spec: the error string is MissingField or UsernameTaken. -/
def addUserErrorString : AddUserError → String
  | .MissingField => "MissingField"
  | .UsernameTaken => "UsernameTaken"

/-- The join handler (server.js lines 32-60).  Calls addUser; on error
acknowledges the caller with the error and stops.  On success emits the
welcome message to the joining socket only, broadcasts the joined
announcement to the room excluding the joiner, emits roomInfo to the
whole room, then acknowledges success.  All emissions happen after the
registry insertion, so targets are resolved against the new registry. -/
def joinHandler (reg : Registry) (socketId username room : String) :
    Registry × Outcome :=
  match addUser reg socketId username room with
  | .error e => (reg, .normal [.ack (some (addUserErrorString e))])
  | .ok (user, reg2) =>
    (reg2, .normal
      [ .emit ⟨[socketId],
          .message (generateMessage system
            ("Welcome " ++ lower username ++ "!"))⟩,
        .emit ⟨targetsForRoomExcluding reg2 user.room socketId,
          .message (generateMessage system (user.username ++ " has joined."))⟩,
        .emit ⟨targetsForRoom reg2 user.room,
          .roomInfo user.room (getUsersInRoom reg2 user.room)⟩,
        .ack none ])

/-- The sendMessage handler (server.js lines 63-78).  Looks up the user,
checks the message against the profanity predicate (isProfane of a
fresh bad-words Filter, kept opaque as a parameter) and rejects profane
messages; otherwise emits the message to the whole room and
acknowledges.  When no user is bound to the socket, the non-profane
path dereferences `user.room` on undefined: an uncaught TypeError,
modelled as the crash outcome. -/
def sendMessageHandler (isProfane : String → Bool) (reg : Registry)
    (socketId message : String) : Registry × Outcome :=
  let user? := getUser reg socketId
  if isProfane message then
    (reg, .normal [.ack (some "Profanity is not allowed.")])
  else
    match user? with
    | none => (reg, .crash [])
    | some user =>
      (reg, .normal
        [ .emit ⟨targetsForRoom reg user.room,
            .message (generateMessage user.username message)⟩,
          .ack none ])

/-- The sendLocation handler (server.js lines 81-89).  Looks up the user
and emits the location to the whole room, then acknowledges; with no
user bound it dereferences `user.room` on undefined: an uncaught
TypeError, modelled as the crash outcome. -/
def sendLocationHandler (reg : Registry) (socketId location : String) :
    Registry × Outcome :=
  match getUser reg socketId with
  | none => (reg, .crash [])
  | some user =>
    (reg, .normal
      [ .emit ⟨targetsForRoom reg user.room,
          .location (generateLocation user.username location)⟩,
        .ack none ])

/-- The disconnect handler (server.js lines 92-108).  Removes the user;
if one was removed, emits the departure message and a refreshed
roomInfo to the room, both resolved against the registry after removal;
otherwise does nothing. -/
def disconnectHandler (reg : Registry) (socketId : String) :
    Registry × Outcome :=
  match removeUser reg socketId with
  | (none, reg2) => (reg2, .normal [])
  | (some user, reg2) =>
    (reg2, .normal
      [ .emit ⟨targetsForRoom reg2 user.room,
          .message (generateMessage system
            (user.username ++ " has left the room."))⟩,
        .emit ⟨targetsForRoom reg2 user.room,
          .roomInfo user.room (getUsersInRoom reg2 user.room)⟩ ])

/-- The full registry invariant between two users: distinct connection
ids, and distinct usernames (case-insensitive) whenever they share a
room (case-insensitive). -/
def PairOk (u v : User) : Prop :=
  u.id ≠ v.id ∧
  (lower u.room = lower v.room → lower u.username ≠ lower v.username)

/-- The username-uniqueness part of the registry invariant between two
users. -/
def NameOk (u v : User) : Prop :=
  lower u.room = lower v.room → lower u.username ≠ lower v.username

instance : DecidableRel PairOk := fun u v =>
  decidable_of_iff
    (u.id ≠ v.id ∧
      (lower u.room = lower v.room → lower u.username ≠ lower v.username))
    Iff.rfl

instance : DecidableRel NameOk := fun u v =>
  decidable_of_iff
    (lower u.room = lower v.room → lower u.username ≠ lower v.username)
    Iff.rfl

/-- The registry invariant of the spec: pairwise distinct connection
ids, and case-insensitive username uniqueness within each room. -/
def RegistryInv (reg : Registry) : Prop := reg.Pairwise PairOk

/-- The username-uniqueness-per-room part of the registry invariant. -/
def UsernameInv (reg : Registry) : Prop := reg.Pairwise NameOk

instance (reg : Registry) : Decidable (RegistryInv reg) :=
  inferInstanceAs (Decidable (reg.Pairwise PairOk))

instance (reg : Registry) : Decidable (UsernameInv reg) :=
  inferInstanceAs (Decidable (reg.Pairwise NameOk))

/-- Char.ofNat keeps the value of a valid scalar. -/
theorem toNat_ofNat_of_valid (n : Nat) (h : n.isValidChar) :
    (Char.ofNat n).toNat = n := by
  rw [Char.ofNat, dif_pos h]; rfl

/-- Lowercasing a character is idempotent. -/
theorem lowerChar_idem (c : Char) : lowerChar (lowerChar c) = lowerChar c := by
  by_cases h : 65 ≤ c.toNat ∧ c.toNat ≤ 90
  · have hv : (c.toNat + 32).isValidChar := Or.inl (by omega)
    have ht : (Char.ofNat (c.toNat + 32)).toNat = c.toNat + 32 :=
      toNat_ofNat_of_valid _ hv
    simp only [lowerChar, if_pos h]
    rw [if_neg]
    rw [ht]; omega
  · simp only [lowerChar, if_neg h]

/-- Lowercasing a string is idempotent. -/
theorem lower_idem (s : String) : lower (lower s) = lower s := by
  simp only [lower, List.map_map]
  congr 1
  induction s.data with
  | nil => rfl
  | cons c l ih => simp [ih, Function.comp, lowerChar_idem]

/-- What a successful addUser did: the stored user is the trimmed input
bound to the connection, it was appended to the registry, both fields
were non-empty after trimming, and no existing user in the same room
held the same username (case-insensitive). -/
theorem addUser_ok {reg : Registry} {id un rm : String} {user : User}
    {reg2 : Registry} (h : addUser reg id un rm = .ok (user, reg2)) :
    user = ⟨id, trimStr un, trimStr rm⟩ ∧ reg2 = reg ++ [user] ∧
    trimStr un ≠ "" ∧ trimStr rm ≠ "" ∧
    ∀ u ∈ reg, lower u.room = lower (trimStr rm) →
      lower u.username ≠ lower (trimStr un) := by
  simp only [addUser] at h
  split at h
  · simp at h
  · split at h
    · simp at h
    · rename_i hne hguard
      simp only [Except.ok.injEq, Prod.mk.injEq] at h
      obtain ⟨rfl, rfl⟩ := h
      refine ⟨rfl, rfl, ?_, ?_, ?_⟩
      · intro he; exact hne (Or.inl he)
      · intro he; exact hne (Or.inr he)
      · intro u hu hroom huser
        exact hguard (List.any_eq_true.mpr ⟨u, hu, by simp [hroom, huser]⟩)

/-- A successful getUser returns a registry member bound to the id. -/
theorem getUser_some {reg : Registry} {id : String} {user : User}
    (h : getUser reg id = some user) : user ∈ reg ∧ user.id = id := by
  unfold getUser at h
  exact ⟨List.mem_of_find?_eq_some h, by
    have := List.find?_some h
    simpa using this⟩

/-- Membership in a room target set, in terms of the registry. -/
theorem mem_targetsForRoom {reg : Registry} {room c : String} :
    c ∈ targetsForRoom reg room ↔
      ∃ u, u ∈ reg ∧ lower u.room = lower room ∧ u.id = c := by
  simp only [targetsForRoom, getUsersInRoom, List.mem_map, List.mem_filter,
    beq_iff_eq]
  constructor
  · rintro ⟨u, ⟨hu, hr⟩, hid⟩
    exact ⟨u, hu, hr, hid⟩
  · rintro ⟨u, hu, hr, hid⟩
    exact ⟨u, ⟨hu, hr⟩, hid⟩

/-- What a removing removeUser did: the new registry is the old one with
every record of the connection filtered out, and the returned user was
a member bound to the id. -/
theorem removeUser_some {reg : Registry} {id : String} {user : User}
    {reg2 : Registry} (h : removeUser reg id = (some user, reg2)) :
    reg2 = reg.filter (fun v => ¬ v.id == id) ∧ user ∈ reg ∧ user.id = id := by
  unfold removeUser at h
  split at h
  · rename_i u heq
    simp only [Prod.mk.injEq, Option.some.injEq] at h
    obtain ⟨rfl, rfl⟩ := h
    exact ⟨rfl, List.mem_of_find?_eq_some heq, by
      have := List.find?_some heq
      simpa using this⟩
  · simp at h

/-- removeUser on an unbound connection returns the registry unchanged. -/
theorem removeUser_none {reg : Registry} {id : String}
    (h : getUser reg id = none) : removeUser reg id = (none, reg) := by
  unfold removeUser
  unfold getUser at h
  rw [h]

/-- Every registry member is a target of its own room. -/
theorem id_mem_targets_of_mem {reg : Registry} {user : User}
    (h : user ∈ reg) : user.id ∈ targetsForRoom reg user.room :=
  mem_targetsForRoom.mpr ⟨user, h, rfl, rfl⟩

/-- The excluded connection is never in the excluding target set. -/
theorem not_mem_targets_excluding (reg : Registry) (room c : String) :
    c ∉ targetsForRoomExcluding reg room c := by
  intro h
  have := (List.mem_filter.mp h).2
  simp at this

/-- After filtering a connection out of the registry, it is in no room
target set. -/
theorem not_mem_targets_after_remove (reg : Registry) (room id : String) :
    id ∉ targetsForRoom (reg.filter (fun v => ¬ v.id == id)) room := by
  intro h
  obtain ⟨u, hu, -, hid⟩ := mem_targetsForRoom.mp h
  have := (List.mem_filter.mp hu).2
  simp [hid] at this

/-- sendMessage on a profane message: rejection ack only. -/
theorem sendMessage_profane_eq {p : String → Bool} {reg : Registry}
    {id m : String} (h : p m = true) :
    sendMessageHandler p reg id m =
      (reg, .normal [.ack (some "Profanity is not allowed.")]) := by
  simp [sendMessageHandler, h]

/-- sendMessage from a joined connection on a clean message: room
broadcast then success ack. -/
theorem sendMessage_joined_eq {p : String → Bool} {reg : Registry}
    {id m : String} {user : User} (hu : getUser reg id = some user)
    (hp : p m = false) :
    sendMessageHandler p reg id m = (reg, .normal
      [ .emit ⟨targetsForRoom reg user.room,
          .message ⟨user.username, m⟩⟩,
        .ack none ]) := by
  simp [sendMessageHandler, hu, hp, generateMessage]

/-- sendMessage from an unjoined connection on a clean message raises
the TypeError. -/
theorem sendMessage_unjoined_eq {p : String → Bool} {reg : Registry}
    {id m : String} (hu : getUser reg id = none) (hp : p m = false) :
    sendMessageHandler p reg id m = (reg, .crash []) := by
  simp [sendMessageHandler, hu, hp]

/-- sendLocation from an unjoined connection raises the TypeError. -/
theorem sendLocation_unjoined_eq {reg : Registry} {id loc : String}
    (hu : getUser reg id = none) :
    sendLocationHandler reg id loc = (reg, .crash []) := by
  simp [sendLocationHandler, hu]

/-- disconnect of an unbound connection is a no-op. -/
theorem disconnect_noop_eq {reg : Registry} {id : String}
    (h : getUser reg id = none) :
    disconnectHandler reg id = (reg, .normal []) := by
  rw [disconnectHandler, removeUser_none h]

/-- After removeUser, the connection is no longer bound. -/
theorem getUser_remove_self (reg : Registry) (id : String) :
    getUser ((removeUser reg id).2) id = none := by
  unfold removeUser
  split
  · show getUser (reg.filter _) id = none
    unfold getUser
    rw [List.find?_eq_none]
    intro x hx
    have := (List.mem_filter.mp hx).2
    simpa using this
  · rename_i heq
    exact heq

/-- The registry left by the disconnect handler is the one removeUser
leaves. -/
theorem disconnect_fst (reg : Registry) (id : String) :
    (disconnectHandler reg id).1 = (removeUser reg id).2 := by
  rw [disconnectHandler]
  cases hru : removeUser reg id with
  | mk mu reg2 => cases mu <;> rfl

/-- A successful addUser preserves the username invariant always, and
the full registry invariant whenever the joining connection id is not
already bound in the registry. -/
theorem addUser_preserves_inv {reg : Registry} {id un rm : String}
    {user : User} {reg2 : Registry}
    (hok : addUser reg id un rm = .ok (user, reg2)) :
    (UsernameInv reg → UsernameInv reg2) ∧
    (RegistryInv reg → (∀ u ∈ reg, u.id ≠ id) → RegistryInv reg2) := by
  obtain ⟨hu, hr, -, -, hguard⟩ := addUser_ok hok
  subst hr; subst hu
  constructor
  · intro hinv
    rw [UsernameInv, List.pairwise_append]
    refine ⟨hinv, List.pairwise_singleton _ _, ?_⟩
    intro a ha b hb
    simp only [List.mem_singleton] at hb
    subst hb
    exact fun hroom => hguard a ha hroom
  · intro hinv hfresh
    rw [RegistryInv, List.pairwise_append]
    refine ⟨hinv, List.pairwise_singleton _ _, ?_⟩
    intro a ha b hb
    simp only [List.mem_singleton] at hb
    subst hb
    exact ⟨hfresh a ha, fun hroom => hguard a ha hroom⟩

/-- removeUser preserves the registry invariant. -/
theorem removeUser_preserves_inv {reg : Registry} {id : String}
    (hinv : RegistryInv reg) : RegistryInv (removeUser reg id).2 := by
  unfold removeUser
  split
  · exact List.Pairwise.sublist (List.filter_sublist _) hinv
  · exact hinv

/-- Claim C1: the claim says an inbound sendMessage or sendLocation on a
connection that has not joined degrades to a local NotJoined error
acknowledgement and never crashes the handler.  The code instead
dereferences `user.room` on undefined: for every registry in which the
connection is unbound, a non-profane sendMessage and any sendLocation
end in the uncaught-TypeError outcome with no acknowledgement at all. -/
theorem send_before_join_crashes (p : String → Bool) (reg : Registry)
    (id m loc : String) (hu : getUser reg id = none) (hp : p m = false) :
    sendMessageHandler p reg id m = (reg, .crash []) ∧
    sendLocationHandler reg id loc = (reg, .crash []) :=
  ⟨sendMessage_unjoined_eq hu hp, sendLocation_unjoined_eq hu⟩

/-- Witness for C1: on the empty registry, connection s1 never joined;
sendMessage of the clean text hello and sendLocation both crash. -/
theorem send_before_join_crashes_witness :
    sendMessageHandler (fun _ => false) [] "s1" "hello" =
      ([], .crash []) ∧
    sendLocationHandler [] "s1" "0,0" = ([], .crash []) :=
  send_before_join_crashes (fun _ => false) [] "s1" "hello" "0,0" rfl rfl

/-- Claim C2 (counterexample): the claim says every operation preserves
the registry invariant, connectionId uniqueness included.  addUser does
not check the connection id: from an invariant-satisfying registry in
which s1 is already bound, a second addUser for s1 under a fresh
username succeeds and leaves two Users with the same connectionId. -/
theorem addUser_rebind_breaks_registry_inv :
    RegistryInv [⟨"s1", "Alice", "lobby"⟩] ∧
    addUser [⟨"s1", "Alice", "lobby"⟩] "s1" "Bob" "lobby" =
      .ok (⟨"s1", "Bob", "lobby"⟩,
        [⟨"s1", "Alice", "lobby"⟩, ⟨"s1", "Bob", "lobby"⟩]) ∧
    ¬ RegistryInv [⟨"s1", "Alice", "lobby"⟩, ⟨"s1", "Bob", "lobby"⟩] :=
  ⟨by decide, rfl, by decide⟩

/-- Claim C2 (amended): case-insensitive username-per-room uniqueness is
preserved by every successful addUser; the full invariant (adding
connectionId uniqueness) is preserved by addUser whenever the joining
connection id is not already bound, and by removeUser always. -/
theorem registry_ops_preserve_invariant (reg : Registry)
    (id un rm : String) :
    (∀ user reg2, addUser reg id un rm = .ok (user, reg2) →
      (UsernameInv reg → UsernameInv reg2) ∧
      (RegistryInv reg → (∀ u ∈ reg, u.id ≠ id) → RegistryInv reg2)) ∧
    (RegistryInv reg → RegistryInv (removeUser reg id).2) :=
  ⟨fun _ _ h => addUser_preserves_inv h, fun h => removeUser_preserves_inv h⟩

/-- Witness for C2: concrete preservation through an addUser of Bob on
s2 next to Alice on s1, and through a removeUser. -/
theorem registry_ops_preserve_invariant_witness :
    UsernameInv [⟨"s1", "Alice", "lobby"⟩, ⟨"s2", "Bob", "lobby"⟩] ∧
    RegistryInv [⟨"s1", "Alice", "lobby"⟩, ⟨"s2", "Bob", "lobby"⟩] ∧
    RegistryInv (removeUser [⟨"s1", "Alice", "lobby"⟩] "s2").2 :=
  ⟨((registry_ops_preserve_invariant [⟨"s1", "Alice", "lobby"⟩]
        "s2" "Bob" "lobby").1 ⟨"s2", "Bob", "lobby"⟩
        [⟨"s1", "Alice", "lobby"⟩, ⟨"s2", "Bob", "lobby"⟩] rfl).1 (by decide),
   ((registry_ops_preserve_invariant [⟨"s1", "Alice", "lobby"⟩]
        "s2" "Bob" "lobby").1 ⟨"s2", "Bob", "lobby"⟩
        [⟨"s1", "Alice", "lobby"⟩, ⟨"s2", "Bob", "lobby"⟩] rfl).2
      (by decide) (by decide),
   (registry_ops_preserve_invariant [⟨"s1", "Alice", "lobby"⟩]
        "s2" "Bob" "lobby").2 (by decide)⟩

/-- Claim C3: every successful join dispatches exactly three emissions
in order: the welcome to the joiner alone, the announcement to the room
excluding the joiner, roomInfo (room name and full member list) to the
whole room including the joiner; the success acknowledgement comes
after them. -/
theorem join_success_effects (reg : Registry) (id un rm : String)
    (user : User) (reg2 : Registry)
    (h : addUser reg id un rm = .ok (user, reg2)) :
    joinHandler reg id un rm = (reg2, .normal
      [ .emit ⟨[id], .message ⟨system, "Welcome " ++ lower un ++ "!"⟩⟩,
        .emit ⟨targetsForRoomExcluding reg2 user.room id,
          .message ⟨system, user.username ++ " has joined."⟩⟩,
        .emit ⟨targetsForRoom reg2 user.room,
          .roomInfo user.room (getUsersInRoom reg2 user.room)⟩,
        .ack none ]) ∧
    id ∈ targetsForRoom reg2 user.room ∧
    id ∉ targetsForRoomExcluding reg2 user.room id := by
  obtain ⟨hu, hr, -, -, -⟩ := addUser_ok h
  refine ⟨by rw [joinHandler, h]; rfl, ?_, not_mem_targets_excluding _ _ _⟩
  have hmem : user ∈ reg2 := by
    subst hr
    exact List.mem_append_right _ (List.mem_singleton.mpr rfl)
  have := id_mem_targets_of_mem hmem
  rwa [show user.id = id from by rw [hu]] at this

/-- Witness for C3: Bob joins the lobby next to Alice. -/
theorem join_success_effects_witness :
    joinHandler [⟨"s1", "Alice", "lobby"⟩] "s2" "Bob" "lobby" =
      ([⟨"s1", "Alice", "lobby"⟩, ⟨"s2", "Bob", "lobby"⟩], .normal
        [ .emit ⟨["s2"], .message ⟨system, "Welcome " ++ lower "Bob" ++ "!"⟩⟩,
          .emit ⟨targetsForRoomExcluding
              [⟨"s1", "Alice", "lobby"⟩, ⟨"s2", "Bob", "lobby"⟩] "lobby" "s2",
            .message ⟨system, "Bob" ++ " has joined."⟩⟩,
          .emit ⟨targetsForRoom
              [⟨"s1", "Alice", "lobby"⟩, ⟨"s2", "Bob", "lobby"⟩] "lobby",
            .roomInfo "lobby" (getUsersInRoom
              [⟨"s1", "Alice", "lobby"⟩, ⟨"s2", "Bob", "lobby"⟩] "lobby")⟩,
          .ack none ]) ∧
    "s2" ∈ targetsForRoom
      [⟨"s1", "Alice", "lobby"⟩, ⟨"s2", "Bob", "lobby"⟩] "lobby" ∧
    "s2" ∉ targetsForRoomExcluding
      [⟨"s1", "Alice", "lobby"⟩, ⟨"s2", "Bob", "lobby"⟩] "lobby" "s2" :=
  join_success_effects [⟨"s1", "Alice", "lobby"⟩] "s2" "Bob" "lobby"
    ⟨"s2", "Bob", "lobby"⟩ [⟨"s1", "Alice", "lobby"⟩, ⟨"s2", "Bob", "lobby"⟩] rfl

/-- Claim C4: when a disconnect actually removes a User, the departure
announcement and the refreshed roomInfo go to every remaining
connection of that room, and the departed connection is in neither the
target set nor the roomInfo member list. -/
theorem disconnect_departure_effects (reg : Registry) (id : String)
    (user : User) (reg2 : Registry)
    (h : removeUser reg id = (some user, reg2)) :
    disconnectHandler reg id = (reg2, .normal
      [ .emit ⟨targetsForRoom reg2 user.room,
          .message ⟨system, user.username ++ " has left the room."⟩⟩,
        .emit ⟨targetsForRoom reg2 user.room,
          .roomInfo user.room (getUsersInRoom reg2 user.room)⟩ ]) ∧
    id ∉ targetsForRoom reg2 user.room ∧
    ∀ u ∈ getUsersInRoom reg2 user.room, u.id ≠ id := by
  obtain ⟨hr, -, -⟩ := removeUser_some h
  refine ⟨by rw [disconnectHandler, h]; rfl, ?_, ?_⟩
  · subst hr
    exact not_mem_targets_after_remove reg user.room id
  · intro u hu hid
    subst hr
    have hmem : u ∈ reg.filter (fun v => ¬ v.id == id) :=
      (List.mem_filter.mp hu).1
    have := (List.mem_filter.mp hmem).2
    simp [hid] at this

/-- Witness for C4: Alice on s1 disconnects from the lobby shared with
Bob on s2. -/
theorem disconnect_departure_effects_witness :
    disconnectHandler [⟨"s1", "Alice", "lobby"⟩, ⟨"s2", "Bob", "lobby"⟩]
        "s1" =
      ([⟨"s2", "Bob", "lobby"⟩], .normal
        [ .emit ⟨targetsForRoom [⟨"s2", "Bob", "lobby"⟩] "lobby",
            .message ⟨system, "Alice" ++ " has left the room."⟩⟩,
          .emit ⟨targetsForRoom [⟨"s2", "Bob", "lobby"⟩] "lobby",
            .roomInfo "lobby"
              (getUsersInRoom [⟨"s2", "Bob", "lobby"⟩] "lobby")⟩ ]) ∧
    "s1" ∉ targetsForRoom [⟨"s2", "Bob", "lobby"⟩] "lobby" ∧
    ∀ u ∈ getUsersInRoom [⟨"s2", "Bob", "lobby"⟩] "lobby", u.id ≠ "s1" :=
  disconnect_departure_effects
    [⟨"s1", "Alice", "lobby"⟩, ⟨"s2", "Bob", "lobby"⟩] "s1"
    ⟨"s1", "Alice", "lobby"⟩ [⟨"s2", "Bob", "lobby"⟩] rfl

/-- Claim C5: a sendMessage whose text the profanity predicate flags is
answered with the failure acknowledgement, no message event is emitted
to anyone and the registry is unchanged. -/
theorem profane_message_rejected (p : String → Bool) (reg : Registry)
    (id m : String) (h : p m = true) :
    sendMessageHandler p reg id m =
      (reg, .normal [.ack (some "Profanity is not allowed.")]) :=
  sendMessage_profane_eq h

/-- Witness for C5: Alice sends a message the predicate flags. -/
theorem profane_message_rejected_witness :
    sendMessageHandler (fun s => s == "darn") [⟨"s1", "Alice", "lobby"⟩]
        "s1" "darn" =
      ([⟨"s1", "Alice", "lobby"⟩],
        .normal [.ack (some "Profanity is not allowed.")]) :=
  profane_message_rejected (fun s => s == "darn")
    [⟨"s1", "Alice", "lobby"⟩] "s1" "darn" rfl

/-- Claim C6: a non-profane sendMessage from a joined connection emits
one message event attributed to the bound username to every connection
of the room, the sender included, followed by the success
acknowledgement. -/
theorem message_room_broadcast (p : String → Bool) (reg : Registry)
    (id m : String) (user : User) (hu : getUser reg id = some user)
    (hp : p m = false) :
    sendMessageHandler p reg id m = (reg, .normal
      [ .emit ⟨targetsForRoom reg user.room,
          .message ⟨user.username, m⟩⟩,
        .ack none ]) ∧
    id ∈ targetsForRoom reg user.room := by
  refine ⟨sendMessage_joined_eq hu hp, ?_⟩
  obtain ⟨hmem, hid⟩ := getUser_some hu
  have := id_mem_targets_of_mem hmem
  rwa [hid] at this

/-- Witness for C6: Alice, joined in the lobby with Bob, sends hello. -/
theorem message_room_broadcast_witness :
    sendMessageHandler (fun _ => false)
        [⟨"s1", "Alice", "lobby"⟩, ⟨"s2", "Bob", "lobby"⟩] "s1" "hello" =
      ([⟨"s1", "Alice", "lobby"⟩, ⟨"s2", "Bob", "lobby"⟩], .normal
        [ .emit ⟨targetsForRoom
              [⟨"s1", "Alice", "lobby"⟩, ⟨"s2", "Bob", "lobby"⟩] "lobby",
            .message ⟨"Alice", "hello"⟩⟩,
          .ack none ]) ∧
    "s1" ∈ targetsForRoom
      [⟨"s1", "Alice", "lobby"⟩, ⟨"s2", "Bob", "lobby"⟩] "lobby" :=
  message_room_broadcast (fun _ => false)
    [⟨"s1", "Alice", "lobby"⟩, ⟨"s2", "Bob", "lobby"⟩] "s1" "hello"
    ⟨"s1", "Alice", "lobby"⟩ rfl rfl

/-- Claim C7: a join that fails validation acknowledges the originating
connection with the specific error, broadcasts nothing, and leaves the
registry (hence the connection's unbound state) unchanged. -/
theorem join_failure_local_ack (reg : Registry) (id un rm : String)
    (e : AddUserError) (h : addUser reg id un rm = .error e) :
    joinHandler reg id un rm =
      (reg, .normal [.ack (some (addUserErrorString e))]) := by
  rw [joinHandler, h]

/-- Witness for C7: s2 tries to join the lobby as alice while Alice
holds the name there. -/
theorem join_failure_local_ack_witness :
    joinHandler [⟨"s1", "Alice", "lobby"⟩] "s2" "alice" "LOBBY" =
      ([⟨"s1", "Alice", "lobby"⟩],
        .normal [.ack (some (addUserErrorString .UsernameTaken))]) :=
  join_failure_local_ack [⟨"s1", "Alice", "lobby"⟩] "s2" "alice" "LOBBY"
    .UsernameTaken rfl

/-- Claim C8: disconnect is idempotent: after any disconnect a second
disconnect of the same connection finds no User and performs no action,
and a disconnect of a never-joined connection is already a no-op. -/
theorem disconnect_idempotent (reg : Registry) (id : String) :
    disconnectHandler (disconnectHandler reg id).1 id =
      ((disconnectHandler reg id).1, .normal []) ∧
    (getUser reg id = none → disconnectHandler reg id = (reg, .normal [])) := by
  refine ⟨?_, fun h => disconnect_noop_eq h⟩
  rw [disconnect_fst]
  exact disconnect_noop_eq (getUser_remove_self reg id)

/-- Witness for C8: double disconnect of s1, and disconnect of the
never-joined s2 on the empty registry. -/
theorem disconnect_idempotent_witness :
    disconnectHandler (disconnectHandler [⟨"s1", "Alice", "lobby"⟩] "s1").1
        "s1" =
      ((disconnectHandler [⟨"s1", "Alice", "lobby"⟩] "s1").1, .normal []) ∧
    disconnectHandler [] "s2" = ([], .normal []) :=
  ⟨(disconnect_idempotent [⟨"s1", "Alice", "lobby"⟩] "s1").1,
   (disconnect_idempotent [] "s2").2 rfl⟩

/-- Claim C9: the profanity check is decided before the looked-up user
record is used: a profane message is rejected for every connection,
joined or not, and the crashing not-joined path is reachable only with
a non-profane message. -/
theorem profanity_checked_before_user (p : String → Bool) (reg : Registry)
    (id m : String) :
    (p m = true → sendMessageHandler p reg id m =
      (reg, .normal [.ack (some "Profanity is not allowed.")])) ∧
    ((sendMessageHandler p reg id m).2 = .crash [] →
      p m = false ∧ getUser reg id = none) := by
  refine ⟨fun h => sendMessage_profane_eq h, fun hcrash => ?_⟩
  by_cases hp : p m = true
  · rw [sendMessage_profane_eq hp] at hcrash
    simp at hcrash
  · have hp2 : p m = false := by simpa using hp
    refine ⟨hp2, ?_⟩
    cases hg : getUser reg id with
    | none => rfl
    | some u =>
      rw [sendMessage_joined_eq hg hp2] at hcrash
      simp at hcrash

/-- Witness for C9: an unjoined connection sending a flagged word is
still cleanly rejected; the crash on hello implies the message was
clean and the connection unbound. -/
theorem profanity_checked_before_user_witness :
    sendMessageHandler (fun s => s == "darn") [] "s9" "darn" =
      ([], .normal [.ack (some "Profanity is not allowed.")]) ∧
    ((fun _ : String => false) "hello" = false ∧ getUser [] "s9" = none) :=
  ⟨(profanity_checked_before_user (fun s => s == "darn") [] "s9" "darn").1 rfl,
   (profanity_checked_before_user (fun _ => false) [] "s9" "hello").2 rfl⟩

/-- Claim C10: the welcome text is built from the raw client-supplied
username lowercased, while the announcement uses the username stored on
the returned User record (the trimmed input); whenever the stored form
differs from its own lowercase form, the two events name the joiner
differently. -/
theorem welcome_vs_announcement_names (reg : Registry) (id un rm : String)
    (user : User) (reg2 : Registry)
    (h : addUser reg id un rm = .ok (user, reg2)) :
    (∃ rest, (joinHandler reg id un rm).2 = .normal
      (.emit ⟨[id], .message ⟨system, "Welcome " ++ lower un ++ "!"⟩⟩ ::
       .emit ⟨targetsForRoomExcluding reg2 user.room id,
         .message ⟨system, user.username ++ " has joined."⟩⟩ :: rest)) ∧
    user.username = trimStr un ∧
    (user.username ≠ lower user.username → lower un ≠ user.username) := by
  obtain ⟨hu, hr, -, -, -⟩ := addUser_ok h
  refine ⟨⟨[.emit ⟨targetsForRoom reg2 user.room,
      .roomInfo user.room (getUsersInRoom reg2 user.room)⟩, .ack none],
      by rw [joinHandler, h]; rfl⟩, by rw [hu], ?_⟩
  intro hne heq
  apply hne
  rw [← heq, lower_idem]

/-- Witness for C10: Alice joins; the welcome says alice while the
announcement says Alice. -/
theorem welcome_vs_announcement_names_witness :
    (∃ rest, (joinHandler [] "s1" "Alice" "lobby").2 = .normal
      (.emit ⟨["s1"], .message ⟨system, "Welcome " ++ lower "Alice" ++ "!"⟩⟩ ::
       .emit ⟨targetsForRoomExcluding [⟨"s1", "Alice", "lobby"⟩] "lobby" "s1",
         .message ⟨system, "Alice" ++ " has joined."⟩⟩ :: rest)) ∧
    "Alice" = trimStr "Alice" ∧
    lower "Alice" ≠ "Alice" :=
  ⟨(welcome_vs_announcement_names [] "s1" "Alice" "lobby"
      ⟨"s1", "Alice", "lobby"⟩ [⟨"s1", "Alice", "lobby"⟩] rfl).1,
   (welcome_vs_announcement_names [] "s1" "Alice" "lobby"
      ⟨"s1", "Alice", "lobby"⟩ [⟨"s1", "Alice", "lobby"⟩] rfl).2.1,
   (welcome_vs_announcement_names [] "s1" "Alice" "lobby"
      ⟨"s1", "Alice", "lobby"⟩ [⟨"s1", "Alice", "lobby"⟩] rfl).2.2 (by decide)⟩

end ChatApp
